import Mathlib

/-!
Verification development for the cluster scheduling core of the udup/dtle
server: the scheduling worker (`internal/server/worker.go`), the leader
lifecycle and membership reconciler (`internal/server/leader.go`), and the
raft persistence setup (`server.go`, provided unnamed).

Go durations are modelled as `Nat` nanoseconds, machine strings as `String`,
and the concurrent environment (RPC results, observed applied indices,
shutdown signals, channel events) as explicit input data threaded through the
translated control flow.
-/

namespace Udup

/-! ## Worker constants (worker.go, `const` block) -/

/-- `backoffBaseline = 20 * time.Millisecond`, in nanoseconds. -/
def backoffBaseline : Nat := 20000000

/-- `backoffLimit = 5 * time.Second`, in nanoseconds. -/
def backoffLimit : Nat := 5000000000

/-- `dequeueTimeout = 500 * time.Millisecond`, in nanoseconds. -/
def dequeueTimeout : Nat := 500000000

/-- `raftSyncLimit = 5 * time.Second`, in nanoseconds. -/
def raftSyncLimit : Nat := 5000000000

/-! ## Worker state and exponential backoff (worker.go) -/

/-- The mutable per-worker state: the consecutive-failure counter
`Worker.failures`. -/
structure Worker where
  failures : Nat
deriving DecidableEq

/-- Result of one `Worker.backoffErr` call: whether the attempt was abandoned
because the shutdown channel fired during the sleep, the interval actually
slept, and the updated worker state. -/
structure BackoffResult where
  abandoned : Bool
  interval : Nat
  worker : Worker
deriving DecidableEq

/-- `Worker.backoffErr`: computes `backoff := (1 << (2 * failures)) *
backoffBaseline`; if it exceeds `backoffLimit` the interval is clamped to the
limit and the counter is left unchanged, otherwise the counter is incremented.
Then the worker sleeps for the interval unless the shutdown channel fires
(`shutdownDuringSleep`), in which case it reports abandonment. -/
def backoffErr (w : Worker) (shutdownDuringSleep : Bool) : BackoffResult :=
  if (1 <<< (2 * w.failures)) * backoffBaseline > backoffLimit then
    { abandoned := shutdownDuringSleep, interval := backoffLimit, worker := w }
  else
    { abandoned := shutdownDuringSleep,
      interval := (1 <<< (2 * w.failures)) * backoffBaseline,
      worker := { w with failures := w.failures + 1 } }

/-- `Worker.backoffReset`: resets the failure counter. -/
def backoffReset (w : Worker) : Worker :=
  { w with failures := 0 }

/-- Worker state after `k` consecutive failed attempts (each one a
`backoffErr` call completing its sleep), starting from a fresh worker. -/
def workerAfterFailures : Nat → Worker
  | 0 => { failures := 0 }
  | k + 1 => (backoffErr (workerAfterFailures k) false).worker

/-- The sleep interval chosen by `backoffErr` on the `k`-th consecutive
failure (`k ≥ 1`) since the last reset. -/
def nthFailureInterval (k : Nat) : Nat :=
  (backoffErr (workerAfterFailures (k - 1)) false).interval

/-! ## waitForIndex (worker.go, `Worker.waitForIndex`) -/

/-- One pass through the `CHECK` label of `waitForIndex`: the applied index
read from `raft.AppliedIndex()`, the elapsed time `time.Now().Sub(start)` at
that pass, and whether the shutdown channel fires during the subsequent
backoff sleep. -/
structure WaitObs where
  applied : Nat
  elapsed : Nat
  shutdownDuringBackoff : Bool
deriving DecidableEq

/-- The two error returns of `waitForIndex`: "sync wait limit reached" and
"shutdown while waiting for state sync". -/
inductive WaitErr where
  | syncLimit
  | shutdownSync
deriving DecidableEq

/-- `Worker.waitForIndex(index, timeout)`: loop at `CHECK` — read the applied
index; if `index <= appliedIndex` reset the backoff counter and return
success (we also record the applied index that satisfied the check); else if
the elapsed time exceeds `timeout` return the sync-limit error; else back off
(shutdown during the sleep returns the shutdown error) and re-check. The
observation list supplies one entry per `CHECK` pass; `none` means the list
ran out before the loop returned. -/
def waitForIndex (index timeout : Nat) (w : Worker) :
    List WaitObs → Option (Except WaitErr Nat × Worker)
  | [] => none
  | o :: rest =>
    if index ≤ o.applied then
      some (Except.ok o.applied, backoffReset w)
    else if timeout < o.elapsed then
      some (Except.error WaitErr.syncLimit, w)
    else
      if (backoffErr w o.shutdownDuringBackoff).abandoned then
        some (Except.error WaitErr.shutdownSync,
          (backoffErr w o.shutdownDuringBackoff).worker)
      else
        waitForIndex index timeout (backoffErr w o.shutdownDuringBackoff).worker rest

/-! ## Worker run loop (worker.go, `Worker.run`, `Worker.sendAck`) -/

/-- An evaluation as the worker sees it: its id and `ModifyIndex`. -/
structure Eval where
  id : String
  modifyIndex : Nat
deriving DecidableEq

/-- Externally visible steps of one `run` iteration: the ack/nack RPCs issued
through `sendAck` and the scheduler invocation. -/
inductive RunAction where
  | ackRPC (evalID : String)
  | nackRPC (evalID : String)
  | invokeScheduler (evalID : String)
deriving DecidableEq

/-- `Worker.sendAck(evalID, ack)`: issues `Eval.Ack` when `ack` and
`Eval.Nack` otherwise (errors are logged and swallowed). -/
def sendAck (evalID : String) (ack : Bool) : RunAction :=
  if ack then RunAction.ackRPC evalID else RunAction.nackRPC evalID

/-- Whether a `run` iteration returns (worker goroutine exits) or loops. -/
inductive RunOutcome where
  | exitWorker
  | continueLoop
deriving DecidableEq

/-- Environment of one `run` iteration: the result of `dequeueEvaluation`
(`none` models its shutdown return), the `srv.IsShutdown()` check right after
the dequeue, the applied-index observations consumed by `waitForIndex`, and
whether `invokeScheduler` succeeds. -/
structure RunEnv where
  dequeued : Option Eval
  shutdownAfterDequeue : Bool
  waitObs : List WaitObs
  schedulerOk : Bool

/-- One iteration of `Worker.run`: dequeue; on shutdown-from-dequeue exit; on
shutdown observed after dequeue, nack and exit; wait for the raft log to
catch up to `eval.ModifyIndex` (error → nack and continue); invoke the
scheduler (error → nack and continue); ack on success. -/
def runIter (env : RunEnv) (w : Worker) :
    Option (List RunAction × RunOutcome × Worker) :=
  match env.dequeued with
  | none => some ([], RunOutcome.exitWorker, w)
  | some eval =>
    if env.shutdownAfterDequeue then
      some ([sendAck eval.id false], RunOutcome.exitWorker, w)
    else
      match waitForIndex eval.modifyIndex raftSyncLimit w env.waitObs with
      | none => none
      | some (Except.error _, w2) =>
        some ([sendAck eval.id false], RunOutcome.continueLoop, w2)
      | some (Except.ok _, w2) =>
        if env.schedulerOk then
          some ([RunAction.invokeScheduler eval.id, sendAck eval.id true],
            RunOutcome.continueLoop, w2)
        else
          some ([RunAction.invokeScheduler eval.id, sendAck eval.id false],
            RunOutcome.continueLoop, w2)

/-! ## SubmitPlan (worker.go, `Worker.SubmitPlan`) -/

/-- The planner's reply to `Plan.Submit`: the fields of `models.PlanResult`
the worker inspects (`RefreshIndex`; `allocIndex` stands for the applied
index of the accepted plan). -/
structure PlanResult where
  refreshIndex : Nat
  allocIndex : Nat
deriving DecidableEq

/-- An FSM state snapshot handle as returned by
`srv.fsm.State().Snapshot()`, identified abstractly. -/
structure StateSnap where
  snapId : Nat
deriving DecidableEq

/-- Error returns of `SubmitPlan`. -/
inductive SubmitErr where
  | rpc
  | missingResult
  | wait (e : WaitErr)
  | snapshotFailed
deriving DecidableEq

/-- Environment of one `SubmitPlan` call: whether the `Plan.Submit` RPC
errors, the `resp.Result` it returns (`none` models a nil result), the
applied-index observations consumed by the refresh `waitForIndex`, and the
snapshot taken after it (`none` models a snapshot error). -/
structure SubmitEnv where
  rpcErr : Bool
  result : Option PlanResult
  waitObs : List WaitObs
  snapAfterWait : Option StateSnap

/-- `Worker.SubmitPlan`: RPC `Plan.Submit`; a nil result is an error; if
`result.RefreshIndex != 0`, wait for the raft log to catch up to it, take a
fresh snapshot, and return it with the result; otherwise return the result
with no state update (`state = nil`, modelled `none`). -/
def SubmitPlan (env : SubmitEnv) (w : Worker) :
    Option (Except SubmitErr (PlanResult × Option StateSnap) × Worker) :=
  if env.rpcErr then
    some (Except.error SubmitErr.rpc, w)
  else
    match env.result with
    | none => some (Except.error SubmitErr.missingResult, w)
    | some result =>
      if result.refreshIndex ≠ 0 then
        match waitForIndex result.refreshIndex raftSyncLimit w env.waitObs with
        | none => none
        | some (Except.error e, w2) => some (Except.error (SubmitErr.wait e), w2)
        | some (Except.ok _, w2) =>
          match env.snapAfterWait with
          | none => some (Except.error SubmitErr.snapshotFailed, w2)
          | some snap => some (Except.ok (result, some snap), w2)
      else
        some (Except.ok (result, none), w)

/-! ## Membership and reconciler (leader.go, serf collaborator) -/

/-- Serf member statuses the reconciler switches on; `reap` is the
out-of-band `StatusReap` used for reaped members. -/
inductive MemberStatus where
  | alive
  | leaving
  | left
  | failed
  | reap
deriving DecidableEq

/-- The `serverParts` a udup server advertises through its serf tags: its
region, bootstrap flag and raft address. -/
structure ServerParts where
  region : String
  bootstrap : Bool
  addr : String
deriving DecidableEq

/-- A serf member as the reconciler sees it. `isServer` records whether
`isUdupServer` recognizes the member's tags as a udup server. -/
structure Member where
  name : String
  status : MemberStatus
  isServer : Bool
  parts : ServerParts
deriving DecidableEq

/-- Modelled from the spec: `isUdupServer` is defined outside the provided
source slice; per the spec a member either "identifies as a server" with a
region, bootstrap flag and address, or it does not. We carry its verdict and
parsed parts on the member itself. -/
def isUdupServer (m : Member) : Bool × ServerParts :=
  (m.isServer, m.parts)

/-- The server configuration fields the reconciler reads. -/
structure SConfig where
  nodeName : String
  region : String

/-- Raft layer errors the peer-change paths distinguish:
`raft.ErrKnownPeer`, `raft.ErrUnknownPeer`, anything else. -/
inductive RaftErr where
  | knownPeer
  | unknownPeer
  | other (msg : String)
deriving DecidableEq

/-- Results the raft layer returns for `AddPeer(addr)` / `RemovePeer(addr)`
futures (`none` = success). -/
structure PeerEnv where
  addPeerErr : String → Option RaftErr
  removePeerErr : String → Option RaftErr

/-- Calls the reconciler issues to the raft layer. -/
inductive PeerAction where
  | addPeer (addr : String)
  | removePeer (addr : String)
deriving DecidableEq

/-- The multi-bootstrap guard at the top of `addRaftPeer`: the joining member
is itself in bootstrap mode and some other member validates as a udup server
also in bootstrap mode. -/
def bootstrapSkip (members : List Member) (m : Member) (parts : ServerParts) : Bool :=
  parts.bootstrap &&
    members.any fun member =>
      (isUdupServer member).1 && decide (member.name ≠ m.name) &&
        (isUdupServer member).2.bootstrap

/-- `Server.addRaftPeer`: if the multi-bootstrap guard fires, log and return
nil without touching raft; otherwise issue `AddPeer` and treat
`raft.ErrKnownPeer` as success, propagating any other error. Returns the raft
calls issued and the error returned. -/
def addRaftPeer (env : PeerEnv) (members : List Member) (m : Member)
    (parts : ServerParts) : List PeerAction × Option RaftErr :=
  if bootstrapSkip members m parts then
    ([], none)
  else
    match env.addPeerErr parts.addr with
    | none => ([PeerAction.addPeer parts.addr], none)
    | some RaftErr.knownPeer => ([PeerAction.addPeer parts.addr], none)
    | some e => ([PeerAction.addPeer parts.addr], some e)

/-- `Server.removeRaftPeer`: issue `RemovePeer` and treat
`raft.ErrUnknownPeer` as success, propagating any other error. -/
def removeRaftPeer (env : PeerEnv) (parts : ServerParts) :
    List PeerAction × Option RaftErr :=
  match env.removePeerErr parts.addr with
  | none => ([PeerAction.removePeer parts.addr], none)
  | some RaftErr.unknownPeer => ([PeerAction.removePeer parts.addr], none)
  | some e => ([PeerAction.removePeer parts.addr], some e)

/-- `Server.reconcileMember`: skip members that are not valid udup servers of
our region; skip ourself (`NodeName.Region`); on `alive` add as raft peer; on
`left`/`reap` remove as raft peer; other statuses do nothing. -/
def reconcileMember (cfg : SConfig) (env : PeerEnv) (members : List Member)
    (m : Member) : List PeerAction × Option RaftErr :=
  if (isUdupServer m).1 = false ∨ (isUdupServer m).2.region ≠ cfg.region then
    ([], none)
  else if m.name = cfg.nodeName ++ "." ++ cfg.region then
    ([], none)
  else
    match m.status with
    | MemberStatus.alive => addRaftPeer env members m (isUdupServer m).2
    | MemberStatus.left => removeRaftPeer env (isUdupServer m).2
    | MemberStatus.reap => removeRaftPeer env (isUdupServer m).2
    | _ => ([], none)

/-! ## Leader lifecycle (leader.go, `Server.leaderLoop` and friends) -/

/-- Control-plane steps the leader loop performs, in order. `establish`
enables the plan queue then the eval broker; `revoke` (the deferred cleanup)
disables them. -/
inductive LAction where
  | barrier
  | enablePlanQueue
  | enableBroker
  | reconcileAll
  | reconcileOne (m : Member)
  | disablePlanQueue
  | disableBroker
deriving DecidableEq

/-- How one stay in the `WAIT` label ends: `stopCh` closed (leadership lost),
server shutdown, or the reconciliation interval timer firing (back to
`RECONCILE`). -/
inductive WaitTerminal where
  | stopped
  | shutdown
  | intervalFired
deriving DecidableEq

/-- One `RECONCILE`→`WAIT` pass of the leader loop: whether the raft barrier
succeeds, whether the full `reconcile()` pass succeeds, the members delivered
on `reconcileCh` while waiting, and how the wait ends. -/
structure Round where
  barrierOk : Bool
  reconcileOk : Bool
  memberEvents : List Member
  terminal : WaitTerminal

/-- Actions of the `RECONCILE` section of one pass plus the member events
handled in `WAIT`: the barrier is always attempted; on barrier failure we
jump to `WAIT` with `reconcileCh` still nil, so nothing else runs and member
events are not received; establish (enable plan queue, enable broker) runs
only on the first successful barrier; the full reconcile pass runs next, and
only when it succeeds is `reconcileCh` armed so member events are handled. -/
def roundActions (established : Bool) (r : Round) : List LAction :=
  LAction.barrier ::
    (if r.barrierOk then
      (if established then [] else [LAction.enablePlanQueue, LAction.enableBroker]) ++
        LAction.reconcileAll ::
          (if r.reconcileOk then r.memberEvents.map LAction.reconcileOne else [])
    else [])

/-- `Server.leaderLoop` over a finite schedule of passes: each pass emits its
actions; an interval firing loops back to `RECONCILE` with the
`establishedLeader` flag updated; `stopCh`/shutdown end the loop, running the
deferred `revokeLeadership` (disable plan queue, disable broker). The boolean
result records whether the loop exited within the schedule. -/
def leaderLoop : List Round → Bool → List LAction × Bool
  | [], _ => ([], false)
  | r :: rest, established =>
    let acts := roundActions established r
    match r.terminal with
    | WaitTerminal.intervalFired =>
      let res := leaderLoop rest (established || r.barrierOk)
      (acts ++ res.1, res.2)
    | _ => (acts ++ [LAction.disablePlanQueue, LAction.disableBroker], true)

/-- Enablement state of (plan queue, eval broker) as driven by the
`SetEnabled` calls in the action trace. -/
def applyAction : Bool × Bool → LAction → Bool × Bool
  | st, LAction.enablePlanQueue => (true, st.2)
  | st, LAction.disablePlanQueue => (false, st.2)
  | st, LAction.enableBroker => (st.1, true)
  | st, LAction.disableBroker => (st.1, false)
  | st, _ => st

/-- Fold of `applyAction` over a trace. -/
def applyActions (st : Bool × Bool) (acts : List LAction) : Bool × Bool :=
  acts.foldl applyAction st

/-! ## Raft persistence setup (server.go, `Server.setupRaft`) -/

/-- `raftState = "raft/"`. -/
def raftState : String := "raft/"

/-- `snapshotsRetained = 2`. -/
def snapshotsRetained : Nat := 2

/-- `raftLogCacheSize = 512`. -/
def raftLogCacheSize : Nat := 512

/-- The kind of log store `setupRaft` wires up. -/
inductive LogStoreKind where
  | inmem
  | boltWithCache (cacheSize : Nat)
deriving DecidableEq

/-- The kind of stable store. -/
inductive StableStoreKind where
  | inmem
  | bolt
deriving DecidableEq

/-- The kind of snapshot store. -/
inductive SnapStoreKind where
  | discard
  | file (retained : Nat)
deriving DecidableEq

/-- The persistence choices `setupRaft` makes: store kinds plus the on-disk
directory (`none` when nothing touches the filesystem). -/
structure RaftStores where
  logStore : LogStoreKind
  stableStore : StableStoreKind
  snapStore : SnapStoreKind
  dir : Option String
deriving DecidableEq

/-- The store-selection branch of `Server.setupRaft`: in dev mode an
`InmemStore` backs both log and stable storage with a discard snapshot store
(nothing on disk); otherwise a BoltDB store under
`filepath.Join(DataDir, raftState)` backs stable storage, the log store is
that store wrapped in a `LogCache` of `raftLogCacheSize` entries, and a file
snapshot store in the same directory retains `snapshotsRetained` snapshots. -/
def setupRaftStores (devMode : Bool) (dataDir : String) : RaftStores :=
  if devMode then
    { logStore := LogStoreKind.inmem, stableStore := StableStoreKind.inmem,
      snapStore := SnapStoreKind.discard, dir := none }
  else
    { logStore := LogStoreKind.boltWithCache raftLogCacheSize,
      stableStore := StableStoreKind.bolt,
      snapStore := SnapStoreKind.file snapshotsRetained,
      dir := some (dataDir ++ "/" ++ raftState) }

/-! ## Backoff arithmetic -/

/-- The clamp condition of `backoffErr` fires exactly when the failure
counter has reached 4: `2^(2·f) · 20ms > 5s` iff `f ≥ 4`. -/
theorem backoff_clamp_iff (f : Nat) :
    backoffLimit < (1 <<< (2 * f)) * backoffBaseline ↔ 4 ≤ f := by
  rw [Nat.shiftLeft_eq, one_mul, backoffBaseline, backoffLimit]
  constructor
  · intro h
    by_contra hf
    push_neg at hf
    have h2 : 2 ^ (2 * f) ≤ 2 ^ 6 :=
      Nat.pow_le_pow_right (by norm_num) (by omega)
    have h3 : (2 : Nat) ^ 6 = 64 := by norm_num
    omega
  · intro h
    have h2 : 2 ^ 8 ≤ 2 ^ (2 * f) :=
      Nat.pow_le_pow_right (by norm_num) (by omega)
    have h3 : (2 : Nat) ^ 8 = 256 := by norm_num
    omega

/-- `backoffErr` reports abandonment exactly when the shutdown channel fired
during its sleep. -/
theorem backoffErr_abandoned (w : Worker) (s : Bool) :
    (backoffErr w s).abandoned = s := by
  unfold backoffErr
  split <;> rfl

/-- The interval `backoffErr` sleeps is the clamped exponential. -/
theorem backoffErr_interval (w : Worker) (s : Bool) :
    (backoffErr w s).interval =
      min backoffLimit ((1 <<< (2 * w.failures)) * backoffBaseline) := by
  unfold backoffErr
  split
  next h => exact (Nat.min_eq_left (Nat.le_of_lt h)).symm
  next h => exact (Nat.min_eq_right (Nat.le_of_not_lt h)).symm

/-- The failure counter increments below the clamp and sticks at 4. -/
theorem backoffErr_failures (w : Worker) (s : Bool) :
    (backoffErr w s).worker.failures =
      if 4 ≤ w.failures then w.failures else w.failures + 1 := by
  unfold backoffErr
  rcases Nat.lt_or_ge w.failures 4 with h | h
  · rw [if_neg (by rw [gt_iff_lt, backoff_clamp_iff]; omega), if_neg (by omega)]
  · rw [if_pos (by rw [gt_iff_lt, backoff_clamp_iff]; omega), if_pos h]

/-- After `k` consecutive failures the counter reads `min k 4`. -/
theorem workerAfterFailures_failures (k : Nat) :
    (workerAfterFailures k).failures = min k 4 := by
  induction k with
  | zero => rfl
  | succ k ih =>
    show (backoffErr (workerAfterFailures k) false).worker.failures = min (k + 1) 4
    rw [backoffErr_failures, ih]
    rcases Nat.lt_or_ge k 4 with h | h
    · rw [if_neg (by omega)]
      omega
    · rw [if_pos (by omega)]
      omega

/-- C3: corrected form. The sleep interval chosen on the `(k+1)`-st
consecutive failure since the last success is
`min(backoffLimit, 2^(2·k) · backoffBaseline)` (the counter read is the
number of *prior* failures, not the current one), and one success resets the
failure counter to zero via `backoffReset`. -/
theorem backoff_interval_formula (k : Nat) :
    nthFailureInterval (k + 1) =
      min backoffLimit (2 ^ (2 * k) * backoffBaseline)
    ∧ ∀ w : Worker, (backoffReset w).failures = 0 := by
  refine ⟨?_, fun w => rfl⟩
  show (backoffErr (workerAfterFailures (k + 1 - 1)) false).interval = _
  rw [Nat.add_sub_cancel, backoffErr_interval, Nat.shiftLeft_eq, one_mul,
    workerAfterFailures_failures]
  rcases Nat.lt_or_ge k 4 with h | h
  · have hmin : min k 4 = k := Nat.min_eq_left (by omega)
    rw [hmin]
  · have hmin : min k 4 = 4 := Nat.min_eq_right h
    rw [hmin]
    have h2 : 2 ^ 8 ≤ 2 ^ (2 * k) :=
      Nat.pow_le_pow_right (by norm_num) (by omega)
    have h3 : (2 : Nat) ^ 8 = 256 := by norm_num
    have h4 : backoffLimit ≤ 2 ^ (2 * k) * backoffBaseline := by
      rw [backoffBaseline, backoffLimit]; omega
    rw [Nat.min_eq_left h4, Nat.min_eq_left (by rw [backoffBaseline, backoffLimit]; norm_num)]

/-- C3: counterexample to the claimed formula. On the first failure
(`k = 1`, counter still 0) the worker sleeps `2^0 · 20ms = 20ms`, not
`min(backoffLimit, 2^(2·1) · 20ms) = 80ms` as the claim states. -/
theorem backoff_first_interval_counterexample :
    nthFailureInterval 1 = 20000000
    ∧ min backoffLimit (2 ^ (2 * 1) * backoffBaseline) = 80000000
    ∧ nthFailureInterval 1 ≠ min backoffLimit (2 ^ (2 * 1) * backoffBaseline) := by
  refine ⟨rfl, by norm_num [backoffLimit, backoffBaseline], ?_⟩
  norm_num [nthFailureInterval, workerAfterFailures, backoffErr, backoffLimit,
    backoffBaseline]

/-! ## waitForIndex and the worker run loop -/

/-- `waitForIndex` succeeds only at a check that actually observed the target
index applied: the returned applied index satisfies the target. -/
theorem waitForIndex_ok_ge {index timeout : Nat} {w w2 : Worker} {a : Nat}
    {obs : List WaitObs}
    (h : waitForIndex index timeout w obs = some (Except.ok a, w2)) :
    index ≤ a := by
  induction obs generalizing w with
  | nil => simp [waitForIndex] at h
  | cons o rest ih =>
    rw [waitForIndex] at h
    split_ifs at h with h1 h2 h3
    · simp only [Option.some.injEq, Prod.mk.injEq, Except.ok.injEq] at h
      obtain ⟨h4, -⟩ := h
      omega
    · simp at h
    · simp at h
    · exact ih h

/-- If no check ever observes the target index applied, `waitForIndex` can
only return an error. -/
theorem waitForIndex_error_of_never_applied {index timeout : Nat} {w w2 : Worker}
    {r : Except WaitErr Nat} {obs : List WaitObs}
    (hlt : ∀ o ∈ obs, o.applied < index)
    (h : waitForIndex index timeout w obs = some (r, w2)) :
    ∃ e, r = Except.error e := by
  induction obs generalizing w with
  | nil => simp [waitForIndex] at h
  | cons o rest ih =>
    rw [waitForIndex] at h
    have h1 : ¬ index ≤ o.applied := by
      have := hlt o (List.mem_cons_self o rest)
      omega
    rw [if_neg h1] at h
    split_ifs at h with h2 h3
    · simp only [Option.some.injEq, Prod.mk.injEq] at h
      exact ⟨WaitErr.syncLimit, h.1.symm⟩
    · simp only [Option.some.injEq, Prod.mk.injEq] at h
      exact ⟨WaitErr.shutdownSync, h.1.symm⟩
    · exact ih (fun o ho => hlt o (List.mem_cons_of_mem _ ho)) h

/-- C1: a worker invokes the scheduler on a dequeued evaluation only after a
`waitForIndex` check observed `applied_index ≥ eval.ModifyIndex`; when
`waitForIndex` returns an error the iteration nacks the evaluation and
continues the loop without invoking the scheduler; and if the applied index
never reaches the target, `waitForIndex` can only return an error. -/
theorem worker_scheduler_gated_on_applied_index
    (env : RunEnv) (w : Worker) (eval : Eval)
    (hdq : env.dequeued = some eval)
    (hsd : env.shutdownAfterDequeue = false) :
    (∀ e w2, waitForIndex eval.modifyIndex raftSyncLimit w env.waitObs =
        some (Except.error e, w2) →
      runIter env w =
        some ([RunAction.nackRPC eval.id], RunOutcome.continueLoop, w2))
    ∧ (∀ acts out w2, runIter env w = some (acts, out, w2) →
        RunAction.invokeScheduler eval.id ∈ acts →
        ∃ a w3, waitForIndex eval.modifyIndex raftSyncLimit w env.waitObs =
            some (Except.ok a, w3) ∧ eval.modifyIndex ≤ a)
    ∧ ((∀ o ∈ env.waitObs, o.applied < eval.modifyIndex) →
        ∀ r w2, waitForIndex eval.modifyIndex raftSyncLimit w env.waitObs =
            some (r, w2) → ∃ e, r = Except.error e) := by
  refine ⟨?_, ?_, ?_⟩
  · intro e w2 hwait
    simp [runIter, hdq, hsd, hwait, sendAck]
  · intro acts out w2 hrun hmem
    rcases hw : waitForIndex eval.modifyIndex raftSyncLimit w env.waitObs with
      - | ⟨r, w3⟩
    · simp [runIter, hdq, hsd, hw] at hrun
    · cases r with
      | error e =>
        simp [runIter, hdq, hsd, hw, sendAck] at hrun
        rw [← hrun.1] at hmem
        simp at hmem
      | ok a =>
        exact ⟨a, w3, rfl, waitForIndex_ok_ge hw⟩
  · intro hlt r w2 hwait
    exact waitForIndex_error_of_never_applied hlt hwait

/-- C1 witness: a concrete iteration in which the applied index stays below
the target and the elapsed time exceeds `raftSyncLimit`: the worker nacks and
continues. -/
theorem worker_scheduler_gated_witness :
    runIter ⟨some ⟨"eval1", 5⟩, false,
        [⟨2, 0, false⟩, ⟨1, 6000000000, false⟩], true⟩ ⟨0⟩ =
      some ([RunAction.nackRPC "eval1"], RunOutcome.continueLoop, ⟨1⟩) :=
  (worker_scheduler_gated_on_applied_index _ ⟨0⟩ ⟨"eval1", 5⟩ rfl rfl).1
    WaitErr.syncLimit ⟨1⟩ rfl

/-- C10: when the worker observes the server-wide shutdown signal right
after successfully dequeuing an evaluation, it nacks the evaluation
(returning it to the broker) and exits its loop. -/
theorem worker_nacks_on_shutdown_after_dequeue
    (env : RunEnv) (w : Worker) (eval : Eval)
    (hdq : env.dequeued = some eval)
    (hsd : env.shutdownAfterDequeue = true) :
    runIter env w =
      some ([RunAction.nackRPC eval.id], RunOutcome.exitWorker, w) := by
  simp [runIter, hdq, hsd, sendAck]

/-- C10 witness. -/
theorem worker_nacks_on_shutdown_witness :
    runIter ⟨some ⟨"eval2", 7⟩, true, [], true⟩ ⟨0⟩ =
      some ([RunAction.nackRPC "eval2"], RunOutcome.exitWorker, ⟨0⟩) :=
  worker_nacks_on_shutdown_after_dequeue _ ⟨0⟩ ⟨"eval2", 7⟩ rfl rfl

/-- C5: when the planner's result carries `RefreshIndex = 0`, `SubmitPlan`
returns the applied plan result with no new snapshot; when
`RefreshIndex ≠ 0` and `SubmitPlan` succeeds, the returned snapshot is the
one freshly taken after `waitForIndex` confirmed
`applied_index ≥ RefreshIndex`. -/
theorem submitPlan_refresh_semantics
    (env : SubmitEnv) (w : Worker) (r : PlanResult)
    (hrpc : env.rpcErr = false)
    (hres : env.result = some r) :
    (r.refreshIndex = 0 →
      SubmitPlan env w = some (Except.ok (r, none), w))
    ∧ (r.refreshIndex ≠ 0 →
      ∀ r2 st w2, SubmitPlan env w = some (Except.ok (r2, st), w2) →
        r2 = r ∧ ∃ snap, env.snapAfterWait = some snap ∧ st = some snap ∧
          ∃ a w3,
            waitForIndex r.refreshIndex raftSyncLimit w env.waitObs =
              some (Except.ok a, w3) ∧ r.refreshIndex ≤ a ∧ w2 = w3) := by
  constructor
  · intro h0
    simp [SubmitPlan, hrpc, hres, h0]
  · intro hne r2 st w2 hsub
    rcases hw : waitForIndex r.refreshIndex raftSyncLimit w env.waitObs with
      - | ⟨res, w3⟩
    · simp [SubmitPlan, hrpc, hres, hne, hw] at hsub
    · cases res with
      | error e => simp [SubmitPlan, hrpc, hres, hne, hw] at hsub
      | ok a =>
        rcases hsnap : env.snapAfterWait with - | snap
        · simp [SubmitPlan, hrpc, hres, hne, hw, hsnap] at hsub
        · simp [SubmitPlan, hrpc, hres, hne, hw, hsnap] at hsub
          obtain ⟨⟨hr2, hst⟩, hw2⟩ := hsub
          exact ⟨hr2.symm, snap, rfl, hst.symm,
            a, w3, rfl, waitForIndex_ok_ge hw, hw2.symm⟩

/-- C5 witness: with `RefreshIndex = 0` a concrete `SubmitPlan` call returns
the result and no new snapshot. -/
theorem submitPlan_refresh_witness :
    SubmitPlan ⟨false, some ⟨0, 9⟩, [], none⟩ ⟨2⟩ =
      some (Except.ok (⟨0, 9⟩, none), ⟨2⟩) :=
  (submitPlan_refresh_semantics ⟨false, some ⟨0, 9⟩, [], none⟩ ⟨2⟩
    ⟨0, 9⟩ rfl rfl).1 rfl

/-! ## Leader lifecycle -/

/-- Unfolding `leaderLoop` at a pass whose wait ends with `stopCh` closed:
the deferred revoke runs and the loop exits. -/
theorem leaderLoop_exit (r : Round) (rest : List Round) (est : Bool)
    (hr : r.terminal = WaitTerminal.stopped ∨
      r.terminal = WaitTerminal.shutdown) :
    leaderLoop (r :: rest) est =
      (roundActions est r ++ [LAction.disablePlanQueue, LAction.disableBroker],
       true) := by
  rcases hr with hr | hr <;> simp [leaderLoop, hr]

/-- Unfolding `leaderLoop` at a pass whose wait ends with the reconciliation
interval firing: the loop re-enters `RECONCILE`. -/
theorem leaderLoop_interval (r : Round) (rest : List Round) (est : Bool)
    (hr : r.terminal = WaitTerminal.intervalFired) :
    leaderLoop (r :: rest) est =
      (roundActions est r ++ (leaderLoop rest (est || r.barrierOk)).1,
       (leaderLoop rest (est || r.barrierOk)).2) := by
  simp [leaderLoop, hr]

/-- `applyActions` distributes over trace concatenation. -/
theorem applyActions_append (st : Bool × Bool) (a b : List LAction) :
    applyActions st (a ++ b) = applyActions (applyActions st a) b := by
  simp [applyActions]

/-- A trace ending in the revoke pair leaves both queues disabled. -/
theorem applyActions_revoke_tail (st : Bool × Bool) (acts : List LAction) :
    applyActions st
      (acts ++ [LAction.disablePlanQueue, LAction.disableBroker]) =
      (false, false) := by
  rw [applyActions_append]
  rfl

/-- C2: if, after any number of interval-terminated passes, a pass's wait
ends because `stopCh` was closed (the leadership stream reported
`isLeader = false`), the leader loop exits, its trace ends with the revoke
pair — `SetEnabled(false)` on the plan queue then on the eval broker — and
after the trace both subsystems are disabled whatever state they started
in. -/
theorem leaderLoop_revokes_on_stepdown
    (pre : List Round) (r : Round) (rest : List Round) (est : Bool)
    (hpre : ∀ p ∈ pre, p.terminal = WaitTerminal.intervalFired)
    (hr : r.terminal = WaitTerminal.stopped) :
    (leaderLoop (pre ++ r :: rest) est).2 = true
    ∧ (∃ acts, (leaderLoop (pre ++ r :: rest) est).1 =
        acts ++ [LAction.disablePlanQueue, LAction.disableBroker])
    ∧ ∀ st, applyActions st (leaderLoop (pre ++ r :: rest) est).1 =
        (false, false) := by
  revert hpre
  induction pre generalizing est with
  | nil =>
    intro hpre
    rw [List.nil_append, leaderLoop_exit r rest est (Or.inl hr)]
    exact ⟨rfl, ⟨roundActions est r, rfl⟩,
      fun st => applyActions_revoke_tail st _⟩
  | cons p pre ih =>
    intro hpre
    have hp := hpre p (List.mem_cons_self p pre)
    rw [List.cons_append, leaderLoop_interval p _ est hp]
    obtain ⟨h1, ⟨acts, h2⟩, h3⟩ :=
      ih (est || p.barrierOk) fun q hq => hpre q (List.mem_cons_of_mem p hq)
    refine ⟨h1, ⟨roundActions est p ++ acts, ?_⟩, fun st => ?_⟩
    · rw [h2, List.append_assoc]
    · rw [applyActions_append]
      exact h3 _

/-- C2 witness: a single pass ending in leadership loss exits with both
queues disabled. -/
theorem leaderLoop_revoke_witness :
    (leaderLoop [⟨true, true, [], WaitTerminal.stopped⟩] false).2 = true
    ∧ applyActions (true, true)
        (leaderLoop [⟨true, true, [], WaitTerminal.stopped⟩] false).1 =
      (false, false) :=
  ⟨(leaderLoop_revokes_on_stepdown [] ⟨true, true, [], WaitTerminal.stopped⟩
      [] false (by simp) rfl).1,
   (leaderLoop_revokes_on_stepdown [] ⟨true, true, [], WaitTerminal.stopped⟩
      [] false (by simp) rfl).2.2 (true, true)⟩

/-- C4: when the raft barrier of a pass fails, that pass performs nothing
but the barrier attempt — in particular neither `SetEnabled(true)` call of
`establishLeadership` happens — the loop does not exit (no crash), the
`establishedLeader` flag is unchanged, and when the reconciliation interval
fires the next pass begins with a fresh barrier attempt. -/
theorem leaderLoop_barrier_failure_retries
    (r : Round) (rest : List Round) (est : Bool)
    (hb : r.barrierOk = false)
    (ht : r.terminal = WaitTerminal.intervalFired) :
    roundActions est r = [LAction.barrier]
    ∧ leaderLoop (r :: rest) est =
        (LAction.barrier :: (leaderLoop rest est).1, (leaderLoop rest est).2)
    ∧ (∀ r2 rest2, rest = r2 :: rest2 →
        (leaderLoop rest est).1.head? = some LAction.barrier) := by
  have hact : roundActions est r = [LAction.barrier] := by
    simp [roundActions, hb]
  refine ⟨hact, ?_, ?_⟩
  · rw [leaderLoop_interval r rest est ht, hact, hb, Bool.or_false]
    rfl
  · intro r2 rest2 h2
    subst h2
    cases h3 : r2.terminal <;> simp [leaderLoop, h3, roundActions]

/-- C4 witness: a failed barrier followed by an interval retry. -/
theorem leaderLoop_barrier_failure_witness :
    roundActions false ⟨false, true, [], WaitTerminal.intervalFired⟩ =
      [LAction.barrier]
    ∧ (leaderLoop [⟨true, true, [], WaitTerminal.stopped⟩] false).1.head? =
      some LAction.barrier :=
  ⟨(leaderLoop_barrier_failure_retries ⟨false, true, [], WaitTerminal.intervalFired⟩
      [⟨true, true, [], WaitTerminal.stopped⟩] false rfl rfl).1,
   (leaderLoop_barrier_failure_retries ⟨false, true, [], WaitTerminal.intervalFired⟩
      [⟨true, true, [], WaitTerminal.stopped⟩] false rfl rfl).2.2
      ⟨true, true, [], WaitTerminal.stopped⟩ [] rfl⟩

/-! ## Reconciler -/

/-- C8: `reconcileMember` issues no raft peer call and returns no error when
the member does not validate as a udup server of the local region, or when
the member is the local node itself (`NodeName.Region`). -/
theorem reconcileMember_skips_foreign_and_self
    (cfg : SConfig) (env : PeerEnv) (members : List Member) (m : Member) :
    ((isUdupServer m).1 = false ∨ (isUdupServer m).2.region ≠ cfg.region →
      reconcileMember cfg env members m = ([], none))
    ∧ (m.name = cfg.nodeName ++ "." ++ cfg.region →
      reconcileMember cfg env members m = ([], none)) := by
  constructor
  · intro h
    simp only [reconcileMember]
    rw [if_pos h]
  · intro h
    by_cases h1 :
      (isUdupServer m).1 = false ∨ (isUdupServer m).2.region ≠ cfg.region
    · simp only [reconcileMember]
      rw [if_pos h1]
    · simp only [reconcileMember]
      rw [if_neg h1, if_pos h]

/-- C8 witness: a member of a foreign region, and the local node itself, are
both skipped. -/
theorem reconcileMember_skips_witness :
    reconcileMember ⟨"node1", "r1"⟩ ⟨fun _ => none, fun _ => none⟩ []
      ⟨"x.r2", MemberStatus.alive, true, ⟨"r2", false, "addrX"⟩⟩ = ([], none)
    ∧ reconcileMember ⟨"node1", "r1"⟩ ⟨fun _ => none, fun _ => none⟩ []
      ⟨"node1.r1", MemberStatus.alive, true, ⟨"r1", false, "addrS"⟩⟩ =
      ([], none) :=
  ⟨(reconcileMember_skips_foreign_and_self ⟨"node1", "r1"⟩
      ⟨fun _ => none, fun _ => none⟩ []
      ⟨"x.r2", MemberStatus.alive, true, ⟨"r2", false, "addrX"⟩⟩).1
      (Or.inr (by decide)),
   (reconcileMember_skips_foreign_and_self ⟨"node1", "r1"⟩
      ⟨fun _ => none, fun _ => none⟩ []
      ⟨"node1.r1", MemberStatus.alive, true, ⟨"r1", false, "addrS"⟩⟩).2
      (by decide)⟩

/-- C7: peer addition and removal are idempotent — `raft.ErrKnownPeer` from
`AddPeer` and `raft.ErrUnknownPeer` from `RemovePeer` are swallowed as
success, any other raft error is propagated, and members with status
`left`/`reap` are routed to `removeRaftPeer`. -/
theorem raft_peer_changes_idempotent
    (cfg : SConfig) (env : PeerEnv) (members : List Member) (m : Member)
    (parts : ServerParts) :
    (bootstrapSkip members m parts = false →
      env.addPeerErr parts.addr = some RaftErr.knownPeer →
      addRaftPeer env members m parts =
        ([PeerAction.addPeer parts.addr], none))
    ∧ (env.removePeerErr parts.addr = some RaftErr.unknownPeer →
      removeRaftPeer env parts = ([PeerAction.removePeer parts.addr], none))
    ∧ (∀ msg, bootstrapSkip members m parts = false →
      env.addPeerErr parts.addr = some (RaftErr.other msg) →
      addRaftPeer env members m parts =
        ([PeerAction.addPeer parts.addr], some (RaftErr.other msg)))
    ∧ (∀ msg, env.removePeerErr parts.addr = some (RaftErr.other msg) →
      removeRaftPeer env parts =
        ([PeerAction.removePeer parts.addr], some (RaftErr.other msg)))
    ∧ ((isUdupServer m).1 = true → (isUdupServer m).2.region = cfg.region →
      m.name ≠ cfg.nodeName ++ "." ++ cfg.region →
      (m.status = MemberStatus.left ∨ m.status = MemberStatus.reap) →
      reconcileMember cfg env members m =
        removeRaftPeer env (isUdupServer m).2) := by
  refine ⟨?_, ?_, ?_, ?_, ?_⟩
  · intro hskip hadd
    simp [addRaftPeer, hskip, hadd]
  · intro hrem
    simp [removeRaftPeer, hrem]
  · intro msg hskip hadd
    simp [addRaftPeer, hskip, hadd]
  · intro msg hrem
    simp [removeRaftPeer, hrem]
  · intro hv hreg hself hst
    simp only [reconcileMember]
    rw [if_neg (by push_neg; exact ⟨by simp [hv], hreg⟩), if_neg hself]
    rcases hst with h | h <;> rw [h]

/-- C7 witness: `already_peer` on add and `unknown_peer` on remove both
succeed, a `left` member routes to removal, and a connection error is
propagated. -/
theorem raft_peer_idempotent_witness :
    addRaftPeer ⟨fun _ => some RaftErr.knownPeer, fun _ => none⟩ []
      ⟨"a.r1", MemberStatus.alive, true, ⟨"r1", false, "addrA"⟩⟩
      ⟨"r1", false, "addrA"⟩ = ([PeerAction.addPeer "addrA"], none)
    ∧ removeRaftPeer ⟨fun _ => none, fun _ => some RaftErr.unknownPeer⟩
      ⟨"r1", false, "addrB"⟩ = ([PeerAction.removePeer "addrB"], none)
    ∧ removeRaftPeer ⟨fun _ => none, fun _ => some (RaftErr.other "conn")⟩
      ⟨"r1", false, "addrB"⟩ =
      ([PeerAction.removePeer "addrB"], some (RaftErr.other "conn"))
    ∧ reconcileMember ⟨"node1", "r1"⟩
      ⟨fun _ => none, fun _ => some RaftErr.unknownPeer⟩ []
      ⟨"b.r1", MemberStatus.left, true, ⟨"r1", false, "addrB"⟩⟩ =
      removeRaftPeer ⟨fun _ => none, fun _ => some RaftErr.unknownPeer⟩
        ⟨"r1", false, "addrB"⟩ :=
  ⟨(raft_peer_changes_idempotent ⟨"node1", "r1"⟩
      ⟨fun _ => some RaftErr.knownPeer, fun _ => none⟩ []
      ⟨"a.r1", MemberStatus.alive, true, ⟨"r1", false, "addrA"⟩⟩
      ⟨"r1", false, "addrA"⟩).1 rfl rfl,
   (raft_peer_changes_idempotent ⟨"node1", "r1"⟩
      ⟨fun _ => none, fun _ => some RaftErr.unknownPeer⟩ []
      ⟨"b.r1", MemberStatus.left, true, ⟨"r1", false, "addrB"⟩⟩
      ⟨"r1", false, "addrB"⟩).2.1 rfl,
   (raft_peer_changes_idempotent ⟨"node1", "r1"⟩
      ⟨fun _ => none, fun _ => some (RaftErr.other "conn")⟩ []
      ⟨"b.r1", MemberStatus.left, true, ⟨"r1", false, "addrB"⟩⟩
      ⟨"r1", false, "addrB"⟩).2.2.2.1 "conn" rfl,
   (raft_peer_changes_idempotent ⟨"node1", "r1"⟩
      ⟨fun _ => none, fun _ => some RaftErr.unknownPeer⟩ []
      ⟨"b.r1", MemberStatus.left, true, ⟨"r1", false, "addrB"⟩⟩
      ⟨"r1", false, "addrB"⟩).2.2.2.2 rfl rfl (by decide) (Or.inl rfl)⟩

/-- C6: counterexample to the claim as stated. The reconciled member `a.r1`
is alive, valid and of the local region but has `bootstrap = false`, while
another member `b.r1` has the bootstrap flag set; the code still issues
`AddPeer` — the guard in `addRaftPeer` only fires when the member being
added is itself in bootstrap mode. -/
theorem reconcile_bootstrap_counterexample :
    ((⟨"b.r1", MemberStatus.alive, true, ⟨"r1", true, "addrB"⟩⟩ : Member)).parts.bootstrap = true
    ∧ ((⟨"a.r1", MemberStatus.alive, true, ⟨"r1", false, "addrA"⟩⟩ : Member)).status =
      MemberStatus.alive
    ∧ reconcileMember ⟨"node1", "r1"⟩ ⟨fun _ => none, fun _ => none⟩
        [⟨"a.r1", MemberStatus.alive, true, ⟨"r1", false, "addrA"⟩⟩,
         ⟨"b.r1", MemberStatus.alive, true, ⟨"r1", true, "addrB"⟩⟩]
        ⟨"a.r1", MemberStatus.alive, true, ⟨"r1", false, "addrA"⟩⟩ =
      ([PeerAction.addPeer "addrA"], none) :=
  ⟨rfl, rfl, by decide⟩

/-- C6: amended form. When reconciling an alive member that is itself in
bootstrap mode, if any *other* member validating as a udup server has the
bootstrap flag set, the reconciler skips the member without issuing any
`AddPeer` call and reports success. -/
theorem addRaftPeer_double_bootstrap_guard
    (cfg : SConfig) (env : PeerEnv) (members : List Member) (m other : Member)
    (hv : (isUdupServer m).1 = true)
    (hreg : (isUdupServer m).2.region = cfg.region)
    (hself : m.name ≠ cfg.nodeName ++ "." ++ cfg.region)
    (hst : m.status = MemberStatus.alive)
    (hboot : m.parts.bootstrap = true)
    (hmem : other ∈ members)
    (hov : (isUdupServer other).1 = true)
    (honame : other.name ≠ m.name)
    (hoboot : (isUdupServer other).2.bootstrap = true) :
    reconcileMember cfg env members m = ([], none)
    ∧ addRaftPeer env members m (isUdupServer m).2 = ([], none) := by
  have hskip : bootstrapSkip members m (isUdupServer m).2 = true := by
    simp only [bootstrapSkip, Bool.and_eq_true, List.any_eq_true]
    refine ⟨hboot, other, hmem, ?_⟩
    simp only [isUdupServer] at hov hoboot ⊢
    simp [hov, hoboot, honame]
  have hadd : addRaftPeer env members m (isUdupServer m).2 = ([], none) := by
    simp [addRaftPeer, hskip]
  refine ⟨?_, hadd⟩
  simp only [reconcileMember]
  rw [if_neg (by push_neg; exact ⟨by simp [hv], hreg⟩), if_neg hself, hst]
  exact hadd

/-- C6 witness: two bootstrap-mode members; reconciling the first issues no
`AddPeer`. -/
theorem addRaftPeer_double_bootstrap_witness :
    reconcileMember ⟨"node1", "r1"⟩ ⟨fun _ => none, fun _ => none⟩
      [⟨"a.r1", MemberStatus.alive, true, ⟨"r1", true, "addrA"⟩⟩,
       ⟨"b.r1", MemberStatus.alive, true, ⟨"r1", true, "addrB"⟩⟩]
      ⟨"a.r1", MemberStatus.alive, true, ⟨"r1", true, "addrA"⟩⟩ =
      ([], none) :=
  (addRaftPeer_double_bootstrap_guard ⟨"node1", "r1"⟩
    ⟨fun _ => none, fun _ => none⟩
    [⟨"a.r1", MemberStatus.alive, true, ⟨"r1", true, "addrA"⟩⟩,
     ⟨"b.r1", MemberStatus.alive, true, ⟨"r1", true, "addrB"⟩⟩]
    ⟨"a.r1", MemberStatus.alive, true, ⟨"r1", true, "addrA"⟩⟩
    ⟨"b.r1", MemberStatus.alive, true, ⟨"r1", true, "addrB"⟩⟩
    rfl rfl (by decide) rfl rfl (by simp) rfl (by decide) rfl).1

/-! ## Raft persistence setup -/

/-- C9: in dev mode the log, stable and snapshot stores are purely
in-memory and no directory is touched; otherwise the snapshot store is a
file store retaining `snapshotsRetained = 2 ≥ 2` snapshots, the log store is
the BoltDB store wrapped in a `LogCache` of `raftLogCacheSize = 512`
entries, and everything lives under `<data_dir>/raft/`. -/
theorem setupRaft_persistence_config (dataDir : String) :
    setupRaftStores true dataDir =
      ⟨LogStoreKind.inmem, StableStoreKind.inmem, SnapStoreKind.discard, none⟩
    ∧ setupRaftStores false dataDir =
      ⟨LogStoreKind.boltWithCache raftLogCacheSize, StableStoreKind.bolt,
        SnapStoreKind.file snapshotsRetained,
        some (dataDir ++ "/" ++ raftState)⟩
    ∧ 2 ≤ snapshotsRetained ∧ raftLogCacheSize = 512 ∧ raftState = "raft/" :=
  ⟨rfl, rfl, Nat.le_refl 2, rfl, rfl⟩

end Udup
